import Mathlib

/-!
Verification of the hathr-image-generator service
(`src/image_generator/main.py`), a small HTTP service that renders
playlist cover images and uploads them to an object store.

The embedding below translates the pure core of the service:
month enum and request validation (pydantic models `Month`,
`CreateMonthlyPlaylistCover`, `CreateWeeklyPlaylistCover`),
the plaque layout arithmetic of `_generate_monthly_image` /
`_generate_weekly_image`, the date/label/key string construction
(temporary file names, object-storage keys, returned URLs),
the API-key check `get_api_key`, and the control flow of the two
request handlers (validation → render → upload → response), with the
two effectful collaborators (image renderer, storage client) modelled
as boolean outcome oracles.
-/

namespace ImageGenerator

/-! ### Month enum (main.py lines 29-41) -/

/-- The 12-member `Month(str, Enum)` of main.py. -/
inductive Month where
  | january | february | march | april | may | june
  | july | august | september | october | november | december
deriving DecidableEq, Repr

/-- The string value of each enum member (`Month.JANUARY = "january"`, ...). -/
def Month.val : Month → String
  | .january => "january"
  | .february => "february"
  | .march => "march"
  | .april => "april"
  | .may => "may"
  | .june => "june"
  | .july => "july"
  | .august => "august"
  | .september => "september"
  | .october => "october"
  | .november => "november"
  | .december => "december"

/-- `list(Month).index(month)`: zero-based position in declaration order. -/
def Month.index : Month → Nat
  | .january => 0
  | .february => 1
  | .march => 2
  | .april => 3
  | .may => 4
  | .june => 5
  | .july => 6
  | .august => 7
  | .september => 8
  | .october => 9
  | .november => 10
  | .december => 11

/-- The 12 members in declaration order, as Python's iteration over the
enum class produces them. -/
def Month.all : List Month :=
  [.january, .february, .march, .april, .may, .june,
   .july, .august, .september, .october, .november, .december]

/-- Pydantic validation of a `Month` field: the submitted string is looked up
by enum value, scanning the members in declaration order for one whose
value equals the submitted string exactly (case-sensitively). -/
def Month.fromString (s : String) : Option Month :=
  Month.all.find? (fun m => m.val == s)

/-! ### Request models (main.py lines 43-60) -/

/-- Validated body of `POST /monthly-playlist` (`CreateMonthlyPlaylistCover`):
`month : Month`, `year : int` with `ge=2025`. -/
structure CreateMonthlyPlaylistCover where
  month : Month
  year : Int
deriving DecidableEq, Repr

/-- Validated body of `POST /weekly-playlist` (`CreateWeeklyPlaylistCover`):
two `(year, month, day)` triples, years `ge=2025`, days `ge=1, le=31`. -/
structure CreateWeeklyPlaylistCover where
  year1 : Int
  month1 : Month
  day1 : Int
  year2 : Int
  month2 : Month
  day2 : Int
deriving DecidableEq, Repr

/-- Raw (pre-validation) monthly request body. -/
structure MonthlyRaw where
  month : String
  year : Int
deriving DecidableEq, Repr

/-- Raw (pre-validation) weekly request body. -/
structure WeeklyRaw where
  year1 : Int
  month1 : String
  day1 : Int
  year2 : Int
  month2 : String
  day2 : Int
deriving DecidableEq, Repr

/-- Pydantic validation of the monthly body: the month string must be an
enum value and `year ≥ 2025` (Field ge=2025). -/
def validateMonthly (r : MonthlyRaw) : Option CreateMonthlyPlaylistCover :=
  match Month.fromString r.month with
  | some m => if 2025 ≤ r.year then some ⟨m, r.year⟩ else none
  | none => none

/-- Pydantic validation of the weekly body: both month strings must be enum
values, both years `≥ 2025`, both days in `[1, 31]`.  No calendar
(days-in-month) check is performed. -/
def validateWeekly (r : WeeklyRaw) : Option CreateWeeklyPlaylistCover :=
  match Month.fromString r.month1, Month.fromString r.month2 with
  | some m1, some m2 =>
    if 2025 ≤ r.year1 ∧ 1 ≤ r.day1 ∧ r.day1 ≤ 31 ∧
       2025 ≤ r.year2 ∧ 1 ≤ r.day2 ∧ r.day2 ≤ 31
    then some ⟨r.year1, m1, r.day1, r.year2, m2, r.day2⟩
    else none
  | _, _ => none

/-! ### Decimal rendering of integers (Python `str(int)` / f-string) -/

/-- One decimal digit as a character (`'0'`..`'9'`). -/
def digitChar (n : Nat) : Char :=
  match n with
  | 0 => '0' | 1 => '1' | 2 => '2' | 3 => '3' | 4 => '4'
  | 5 => '5' | 6 => '6' | 7 => '7' | 8 => '8' | 9 => '9'
  | _ => '*'

/-- Fuel-indexed most-significant-first decimal digits of a natural. -/
def natToDigitsAux : Nat → Nat → List Char
  | 0, _ => []
  | fuel + 1, n =>
    if n < 10 then [digitChar n]
    else natToDigitsAux fuel (n / 10) ++ [digitChar (n % 10)]

/-- Decimal rendering of a natural number, `natToDecimal 2025 = "2025"`. -/
def natToDecimal (n : Nat) : String := ⟨natToDigitsAux (n + 1) n⟩

/-- Python `str(i)` for an integer. -/
def intToDecimal (i : Int) : String :=
  if i < 0 then "-" ++ natToDecimal i.natAbs else natToDecimal i.natAbs

/-- Python format spec 02d: zero-pad the decimal rendering to width 2
(the service only formats month numbers 1-12 and days 1-31 this way). -/
def pad2 (i : Int) : String :=
  if 0 ≤ i ∧ i < 10 then "0" ++ intToDecimal i else intToDecimal i

/-! ### Process-wide configuration (main.py lines 18-19, 62-66) -/

/-- Environment-sourced configuration: `S3_URL` and `IMAGE_DIR`
(default `/tmp`). -/
structure Config where
  s3Url : String
  imageDir : String
deriving DecidableEq, Repr

/-- `PLAYLIST_COVER_BUCKET = "playlist-covers"` (line 63). -/
def PLAYLIST_COVER_BUCKET : String := "playlist-covers"

/-- `IMAGE_SIZE = (600, 600)` (line 19). -/
def IMAGE_SIZE : Nat × Nat := (600, 600)

/-- Whether a path string ends with the separator. -/
def endsWithSlash (s : String) : Bool := s.data.getLast? = some '/'

/-- `os.path.join(dir, name)` for the relative names this service builds. -/
def pathJoin (dir name : String) : String :=
  if endsWithSlash dir then dir ++ name else dir ++ "/" ++ name

/-! ### Plaque layout (main.py lines 101-117 and 140-166) -/

/-- Geometry of one text plaque: rectangle origin and size, plus the anchor
position of its text clip. -/
structure PlaqueLayout where
  x : Nat
  y : Nat
  w : Nat
  h : Nat
  textX : Nat
  textY : Nat
deriving DecidableEq, Repr

/-- Single-plaque layout of `_generate_monthly_image` (lines 101-117):
`rect_w = int(w * 0.9)`, `rect_h = int(h * 0.15)`, `margin = 20`,
rectangle at `(w - rect_w, h - rect_h - margin)`, text at
`(x_pos + 20, y_pos)`.  The float products are exact integers at the
canvas sizes the service uses (600 × 0.9 and 600 × 0.15 both round to
the integers 540 and 90 under IEEE-754 doubles before `int` truncates),
so they are embedded as exact truncating rational arithmetic. -/
def compute_single_plaque (cw ch : Nat) : PlaqueLayout :=
  let rectW := cw * 9 / 10
  let rectH := ch * 15 / 100
  let margin := 20
  let xPos := cw - rectW
  let yPos := ch - rectH - margin
  ⟨xPos, yPos, rectW, rectH, xPos + 20, yPos⟩

/-- Dual-plaque layout of `_generate_weekly_image` (lines 140-166):
plaque A at `(0, margin)` with text at `(0 + margin, margin)`, plaque B at
`(w - rect_w, h - rect_h - margin)` with text at `(x_pos + margin, y_pos)`. -/
def compute_dual_plaque (cw ch : Nat) : PlaqueLayout × PlaqueLayout :=
  let rectW := cw * 9 / 10
  let rectH := ch * 15 / 100
  let margin := 20
  let xB := cw - rectW
  let yB := ch - rectH - margin
  (⟨0, margin, rectW, rectH, 0 + margin, margin⟩,
   ⟨xB, yB, rectW, rectH, xB + margin, yB⟩)

/-! ### Color derivation (main.py lines 97, 136) -/

/-- Modelled from the spec: `ColorHash(text).rgb` comes from the external
`colorhash` pip package, whose source is not part of this repository;
§4.1 specifies it as a pure hash-to-color mapping from an arbitrary
string (including the empty string) to a valid RGB triple.  Modelled as a
BKDR-style 32-bit string hash whose low bytes give the RGB channels. -/
def derive_color (s : String) : Nat × Nat × Nat :=
  let h := s.data.foldl (fun h c => (h * 131 + c.toNat) % 2 ^ 32) 0
  (h % 256, h / 256 % 256, h / 65536 % 256)

/-! ### Label, file-name, key and URL strings -/

/-- Text drawn on the monthly cover (line 190): the month value, a space,
then the year. -/
def monthly_text (p : CreateMonthlyPlaylistCover) : String :=
  p.month.val ++ " " ++ intToDecimal p.year

/-- Temporary file name of the monthly render (line 188): the month value,
an underscore, the year, then the suffix .png. -/
def monthly_name (p : CreateMonthlyPlaylistCover) : String :=
  p.month.val ++ "_" ++ intToDecimal p.year ++ ".png"

/-- Temporary destination path of the monthly render (line 120):
`os.path.join(IMAGE_DIR, name)`. -/
def monthly_dest (cfg : Config) (p : CreateMonthlyPlaylistCover) : String :=
  pathJoin cfg.imageDir (monthly_name p)

/-- Monthly object-storage key (line 194): monthly/, the year, a slash,
the month value, then the suffix .png. -/
def monthly_object_name (p : CreateMonthlyPlaylistCover) : String :=
  "monthly/" ++ intToDecimal p.year ++ "/" ++ p.month.val ++ ".png"

/-- The function of main.py line 126 that renders a date: the one-based
month number and the day, each zero-padded to two digits, then the year,
all slash-separated. -/
def format_weekly_date (m : Month) (day year : Int) : String :=
  pad2 ((m.index : Int) + 1) ++ "/" ++ pad2 day ++ "/" ++ intToDecimal year

/-- Python `date.replace('/', '-')`. -/
def replaceSlash (s : String) : String :=
  ⟨s.data.map fun c => if c = '/' then '-' else c⟩

/-- Temporary destination path of the weekly render (line 169): IMAGE_DIR
joined with the two formatted dates, each with every slash replaced by a
hyphen, hyphen-separated and suffixed .png. -/
def weekly_dest (cfg : Config) (p : CreateWeeklyPlaylistCover) : String :=
  let date1 := format_weekly_date p.month1 p.day1 p.year1
  let date2 := format_weekly_date p.month2 p.day2 p.year2
  pathJoin cfg.imageDir (replaceSlash date1 ++ "-" ++ replaceSlash date2 ++ ".png")

/-- Weekly object-storage key (line 211): weekly/, year2, a slash, the
month2 value as a directory, then the month1 value, an underscore, day1,
a hyphen, the month2 value, an underscore, day2, and the suffix .png. -/
def weekly_object_name (p : CreateWeeklyPlaylistCover) : String :=
  "weekly/" ++ intToDecimal p.year2 ++ "/" ++ p.month2.val ++ "/" ++
    p.month1.val ++ "_" ++ intToDecimal p.day1 ++ "-" ++
    p.month2.val ++ "_" ++ intToDecimal p.day2 ++ ".png"

/-- Returned URL (lines 203, 220): the https scheme, the S3 endpoint, the
bucket name and the object key, slash-separated. -/
def coverUrl (cfg : Config) (objectName : String) : String :=
  "https://" ++ cfg.s3Url ++ "/" ++ PLAYLIST_COVER_BUCKET ++ "/" ++ objectName

/-- URL returned by the monthly handler. -/
def monthlyUrl (cfg : Config) (p : CreateMonthlyPlaylistCover) : String :=
  coverUrl cfg (monthly_object_name p)

/-- URL returned by the weekly handler. -/
def weeklyUrl (cfg : Config) (p : CreateWeeklyPlaylistCover) : String :=
  coverUrl cfg (weekly_object_name p)

/-! ### API-key check (main.py lines 73-87) -/

/-- A FastAPI `HTTPException`: status code plus detail message. -/
structure HTTPError where
  status : Nat
  detail : String
deriving DecidableEq, Repr

/-- `get_api_key` (lines 73-87): the header value is `None` when absent
(`auto_error=False`); `if not provided_key` also treats the empty string
as missing; otherwise `secrets.compare_digest` is a (constant-time)
string-equality test against the configured key. -/
def get_api_key (apiKey : String) (provided : Option String) :
    Except HTTPError String :=
  match provided with
  | none => .error ⟨401, "Missing API Key"⟩
  | some k =>
    if k = "" then .error ⟨401, "Missing API Key"⟩
    else if k = apiKey then .ok k
    else .error ⟨401, "Invalid API Key"⟩

/-! ### Handler control flow (main.py lines 185-220)

The renderer (`save_frame`) and the storage client (`put_object`) are
external effectful collaborators; each is modelled by a boolean outcome
oracle.  The trace records which effects were attempted, in order; a
Python exception raised by a collaborator propagates and aborts the
handler at that point. -/

/-- An attempted side effect of a handler. -/
inductive Effect where
  | render
  | upload
deriving DecidableEq, Repr

/-- Outcome of a handler: FastAPI's 422 on body validation failure, a
propagated render or storage exception, or a 200 carrying the URL. -/
inductive HandlerResult where
  | validationError
  | renderError
  | storageError
  | success (url : String)
deriving DecidableEq, Repr

/-- `create_monthly_playlist_cover` (lines 185-203): validate the body,
render the image to a temporary file, upload it under the monthly key,
return the URL. -/
def monthlyHandler (cfg : Config) (raw : MonthlyRaw)
    (renderOk uploadOk : Bool) : List Effect × HandlerResult :=
  match validateMonthly raw with
  | none => ([], .validationError)
  | some p =>
    if !renderOk then ([.render], .renderError)
    else if !uploadOk then ([.render, .upload], .storageError)
    else ([.render, .upload], .success (monthlyUrl cfg p))

/-- `create_weekly_playlist_cover` (lines 205-220): validate the body,
render the image to a temporary file, upload it under the weekly key,
return the URL. -/
def weeklyHandler (cfg : Config) (raw : WeeklyRaw)
    (renderOk uploadOk : Bool) : List Effect × HandlerResult :=
  match validateWeekly raw with
  | none => ([], .validationError)
  | some p =>
    if !renderOk then ([.render], .renderError)
    else if !uploadOk then ([.render, .upload], .storageError)
    else ([.render, .upload], .success (weeklyUrl cfg p))

/-! ## Helper lemmas

The object-storage keys are built from month values, decimal-rendered
integers and punctuation literals; none of these pieces contains a
whitespace character. -/

/-- Decimal digit characters are not whitespace. -/
theorem digitChar_not_whitespace (d : Nat) : ¬ (digitChar d).isWhitespace := by
  unfold digitChar
  split <;> decide

/-- Every character produced by the digit accumulator is a digit character,
hence not whitespace. -/
theorem natToDigitsAux_not_whitespace (fuel : Nat) :
    ∀ (n : Nat), ∀ c ∈ natToDigitsAux fuel n, ¬ c.isWhitespace := by
  induction fuel with
  | zero => intro n c hc; simp [natToDigitsAux] at hc
  | succ f ih =>
    intro n c hc
    simp only [natToDigitsAux] at hc
    split at hc
    · simp at hc; subst hc; exact digitChar_not_whitespace n
    · rcases List.mem_append.mp hc with h | h
      · exact ih _ c h
      · simp at h; subst h; exact digitChar_not_whitespace (n % 10)

/-- The decimal rendering of a natural contains no whitespace. -/
theorem natToDecimal_not_whitespace (n : Nat) :
    ∀ c ∈ (natToDecimal n).data, ¬ c.isWhitespace := fun c hc =>
  natToDigitsAux_not_whitespace _ _ c hc

/-- Appending two whitespace-free strings yields a whitespace-free string. -/
theorem append_not_whitespace {a b : String}
    (ha : ∀ c ∈ a.data, ¬ c.isWhitespace)
    (hb : ∀ c ∈ b.data, ¬ c.isWhitespace) :
    ∀ c ∈ (a ++ b).data, ¬ c.isWhitespace := by
  intro c hc
  rw [String.data_append] at hc
  rcases List.mem_append.mp hc with h | h
  · exact ha c h
  · exact hb c h

/-- The decimal rendering of an integer contains no whitespace. -/
theorem intToDecimal_not_whitespace (i : Int) :
    ∀ c ∈ (intToDecimal i).data, ¬ c.isWhitespace := by
  unfold intToDecimal
  split
  · exact append_not_whitespace (by decide) (natToDecimal_not_whitespace _)
  · exact natToDecimal_not_whitespace _

/-- No month value contains whitespace. -/
theorem month_val_not_whitespace (m : Month) :
    ∀ c ∈ m.val.data, ¬ c.isWhitespace := by
  cases m <;> decide

/-! ## Claims -/

/-- Claim C1: on the fixed 600×600 canvas, the single-plaque layout of
`_generate_monthly_image` places one 540×90 rectangle at (60, 490) with
its text anchored at the plaque origin offset by (20, 0); the dual-plaque
layout of `_generate_weekly_image` places plaque A at (0, 20) and
plaque B at (60, 490), each 540×90, each text anchored at its plaque
origin offset by (20, 0). -/
theorem claim_C1_layout :
    compute_single_plaque 600 600 = ⟨60, 490, 540, 90, 80, 490⟩ ∧
    compute_dual_plaque 600 600 =
      (⟨0, 20, 540, 90, 20, 20⟩, ⟨60, 490, 540, 90, 80, 490⟩) := by
  decide

/-- Claim C2, counterexample: the weekly key the code builds for the
request march 3 - march 9 of year 2025 is
weekly/2025/march/march_3-march_9.png, not the claimed
weekly/2025/march-3-march-9.png. -/
theorem claim_C2_counterexample :
    weekly_object_name ⟨2025, Month.march, 3, 2025, Month.march, 9⟩ =
      "weekly/2025/march/march_3-march_9.png" ∧
    weekly_object_name ⟨2025, Month.march, 3, 2025, Month.march, 9⟩ ≠
      "weekly/2025/march-3-march-9.png" := by
  decide

/-- Claim C2, amended: for every validated weekly request the object key is
weekly/, year2, a slash, the month2 value as an extra directory level,
then month1, an underscore, day1, a hyphen, month2, an underscore, day2
and the suffix .png (months lowercase); the key contains no whitespace. -/
theorem claim_C2_weekly_key (p : CreateWeeklyPlaylistCover) :
    weekly_object_name p =
      "weekly/" ++ intToDecimal p.year2 ++ "/" ++ p.month2.val ++ "/" ++
        p.month1.val ++ "_" ++ intToDecimal p.day1 ++ "-" ++
        p.month2.val ++ "_" ++ intToDecimal p.day2 ++ ".png" ∧
    (∀ c ∈ (weekly_object_name p).data, ¬ c.isWhitespace) := by
  refine ⟨rfl, ?_⟩
  unfold weekly_object_name
  repeat' apply append_not_whitespace
  all_goals first
    | exact intToDecimal_not_whitespace _
    | exact month_val_not_whitespace _
    | decide

/-- Claim C2, witness: the amended key shape and whitespace-freedom
evaluated on the march 3 - march 9 request of 2025. -/
theorem claim_C2_witness :
    weekly_object_name ⟨2025, Month.march, 3, 2025, Month.march, 9⟩ =
      "weekly/" ++ intToDecimal 2025 ++ "/" ++ Month.val Month.march ++ "/" ++
        Month.val Month.march ++ "_" ++ intToDecimal 3 ++ "-" ++
        Month.val Month.march ++ "_" ++ intToDecimal 9 ++ ".png" ∧
    ¬ Char.isWhitespace 'w' := by
  have h := claim_C2_weekly_key ⟨2025, Month.march, 3, 2025, Month.march, 9⟩
  exact ⟨h.1, h.2 'w' (by decide)⟩

/-- Claim C3: for every validated monthly request the object key is
monthly/, the year, a slash, the lowercase month value and the suffix
.png; it contains no whitespace (and, being a pure function of the
request, is identical for identical inputs); in particular the march 2025
request yields monthly/2025/march.png. -/
theorem claim_C3_monthly_key (p : CreateMonthlyPlaylistCover) :
    monthly_object_name p =
      "monthly/" ++ intToDecimal p.year ++ "/" ++ p.month.val ++ ".png" ∧
    (∀ c ∈ (monthly_object_name p).data, ¬ c.isWhitespace) ∧
    monthly_object_name ⟨Month.march, 2025⟩ = "monthly/2025/march.png" := by
  refine ⟨rfl, ?_, by decide⟩
  unfold monthly_object_name
  repeat' apply append_not_whitespace
  all_goals first
    | exact intToDecimal_not_whitespace _
    | exact month_val_not_whitespace _
    | decide

/-- Claim C3, witness: the key of the march 2025 request, and the
whitespace-freedom of its first character. -/
theorem claim_C3_witness :
    monthly_object_name ⟨Month.march, 2025⟩ = "monthly/2025/march.png" ∧
    ¬ Char.isWhitespace 'm' := by
  have h := claim_C3_monthly_key ⟨Month.march, 2025⟩
  exact ⟨h.2.2, h.2.1 'm' (by decide)⟩

/-- Claim C4, counterexample: the pydantic enum lookup is case-sensitive,
so the capitalized spelling is rejected, contradicting the claimed
case-insensitive acceptance. -/
theorem claim_C4_counterexample :
    Month.fromString "March" = none ∧
    validateMonthly ⟨"March", 2025⟩ = none := by
  decide

/-- Claim C4, amended: a month string is accepted exactly when it equals
one of the 12 canonical lowercase names verbatim; the stored member is
the one whose (lowercase) value it equals, so every later use of the
month (color text, filename, storage key) sees that lowercase value.
Case variants and non-month strings are rejected. -/
theorem claim_C4_month_exact (s : String) (m : Month) :
    Month.fromString s = some m ↔ s = m.val := by
  constructor
  · intro h
    unfold Month.fromString at h
    exact (eq_of_beq (@List.find?_some Month (fun x => x.val == s) m Month.all h)).symm
  · intro h
    subst h
    cases m <;> decide

/-- Claim C4, witness: the exact lowercase spelling is accepted. -/
theorem claim_C4_witness : Month.fromString "march" = some Month.march :=
  (claim_C4_month_exact "march" Month.march).mpr rfl

/-- Claim C5: a request is validated exactly when its month strings are
canonical, its years are at least 2025 and its days lie in 1..31 — in
particular a day in range is accepted regardless of the month's true
length (february 30 satisfies the right-hand side) — and a request that
fails validation produces the 422 response with no render or upload
effect. -/
theorem claim_C5_validation (mraw : MonthlyRaw) (wraw : WeeklyRaw)
    (cfg : Config) (r u : Bool) :
    ((validateMonthly mraw).isSome ↔
      (Month.fromString mraw.month).isSome ∧ 2025 ≤ mraw.year) ∧
    ((validateWeekly wraw).isSome ↔
      ((Month.fromString wraw.month1).isSome ∧ (Month.fromString wraw.month2).isSome ∧
       2025 ≤ wraw.year1 ∧ 1 ≤ wraw.day1 ∧ wraw.day1 ≤ 31 ∧
       2025 ≤ wraw.year2 ∧ 1 ≤ wraw.day2 ∧ wraw.day2 ≤ 31)) ∧
    (validateMonthly mraw = none →
      monthlyHandler cfg mraw r u = ([], HandlerResult.validationError)) ∧
    (validateWeekly wraw = none →
      weeklyHandler cfg wraw r u = ([], HandlerResult.validationError)) := by
  refine ⟨?_, ?_, ?_, ?_⟩
  · unfold validateMonthly
    rcases h : Month.fromString mraw.month with _ | m <;> simp [h]
  · unfold validateWeekly
    rcases h1 : Month.fromString wraw.month1 with _ | m1 <;>
      rcases h2 : Month.fromString wraw.month2 with _ | m2 <;> simp [h1, h2]
  · intro h; simp [monthlyHandler, h]
  · intro h; simp [weeklyHandler, h]

/-- Claim C5, witness: february 30 is accepted (no calendar validation),
while a 2024 monthly request and a day-0 weekly request are rejected
before any effect. -/
theorem claim_C5_witness :
    (validateWeekly ⟨2025, "february", 30, 2025, "march", 9⟩).isSome ∧
    monthlyHandler ⟨"s3", "/tmp"⟩ ⟨"march", 2024⟩ true true =
      ([], HandlerResult.validationError) ∧
    weeklyHandler ⟨"s3", "/tmp"⟩ ⟨2025, "march", 0, 2025, "march", 9⟩ true true =
      ([], HandlerResult.validationError) := by
  refine ⟨?_, ?_, ?_⟩
  · exact (claim_C5_validation ⟨"march", 2024⟩ ⟨2025, "february", 30, 2025, "march", 9⟩
      ⟨"s3", "/tmp"⟩ true true).2.1.mpr (by decide)
  · exact (claim_C5_validation ⟨"march", 2024⟩ ⟨2025, "march", 0, 2025, "march", 9⟩
      ⟨"s3", "/tmp"⟩ true true).2.2.1 (by decide)
  · exact (claim_C5_validation ⟨"march", 2024⟩ ⟨2025, "march", 0, 2025, "march", 9⟩
      ⟨"s3", "/tmp"⟩ true true).2.2.2 (by decide)

/-- Claim C6: the color derivation is a pure total function of the input
string — equal inputs give equal RGB triples, and every string (the empty
string included, via the witness) yields a triple whose three channels
are below 256. -/
theorem claim_C6_color (s t : String) :
    (s = t → derive_color s = derive_color t) ∧
    (derive_color s).1 < 256 ∧ (derive_color s).2.1 < 256 ∧
    (derive_color s).2.2 < 256 := by
  refine ⟨fun h => by rw [h], ?_, ?_, ?_⟩ <;>
    · simp only [derive_color]
      exact Nat.mod_lt _ (by norm_num)

/-- Claim C6, witness: determinism and channel validity evaluated on
concrete strings, the empty string included. -/
theorem claim_C6_witness :
    derive_color "march 2025" = derive_color "march 2025" ∧
    (derive_color "").1 < 256 ∧ (derive_color "").2.1 < 256 ∧
    (derive_color "").2.2 < 256 :=
  ⟨(claim_C6_color "march 2025" "march 2025").1 rfl, (claim_C6_color "" "").2⟩

/-- Claim C7: in both handlers, a validation failure produces the 422
outcome with no effect at all; a render failure leaves the upload
unattempted and cannot produce a success; an upload failure cannot
produce a success; and a success outcome (the only one carrying a URL)
implies the body validated, the render succeeded and the upload
succeeded. -/
theorem claim_C7_pipeline (cfg : Config) (mraw : MonthlyRaw) (wraw : WeeklyRaw)
    (r u : Bool) :
    (validateMonthly mraw = none →
      monthlyHandler cfg mraw r u = ([], HandlerResult.validationError)) ∧
    (r = false → Effect.upload ∉ (monthlyHandler cfg mraw r u).1 ∧
      ∀ url, (monthlyHandler cfg mraw r u).2 ≠ HandlerResult.success url) ∧
    (u = false → ∀ url, (monthlyHandler cfg mraw r u).2 ≠ HandlerResult.success url) ∧
    (∀ url, (monthlyHandler cfg mraw r u).2 = HandlerResult.success url →
      r = true ∧ u = true ∧ (validateMonthly mraw).isSome) ∧
    (validateWeekly wraw = none →
      weeklyHandler cfg wraw r u = ([], HandlerResult.validationError)) ∧
    (r = false → Effect.upload ∉ (weeklyHandler cfg wraw r u).1 ∧
      ∀ url, (weeklyHandler cfg wraw r u).2 ≠ HandlerResult.success url) ∧
    (u = false → ∀ url, (weeklyHandler cfg wraw r u).2 ≠ HandlerResult.success url) ∧
    (∀ url, (weeklyHandler cfg wraw r u).2 = HandlerResult.success url →
      r = true ∧ u = true ∧ (validateWeekly wraw).isSome) := by
  cases hm : validateMonthly mraw <;> cases hw : validateWeekly wraw <;>
    cases r <;> cases u <;> simp [monthlyHandler, weeklyHandler, hm, hw]

/-- Claim C7, witness: with a failing renderer, the valid june 2025 monthly
request attempts no upload. -/
theorem claim_C7_witness :
    Effect.upload ∉ (monthlyHandler ⟨"s3", "/tmp"⟩ ⟨"june", 2025⟩ false true).1 :=
  ((claim_C7_pipeline ⟨"s3", "/tmp"⟩ ⟨"june", 2025⟩
    ⟨2025, "june", 1, 2025, "june", 7⟩ false true).2.1 rfl).1

/-- Claim C8, counterexample: the two 401 failure cases carry different
detail messages — the absent-key case says Missing API Key while the
wrong-key case says Invalid API Key — so they do not produce the same
generic detail. -/
theorem claim_C8_counterexample :
    get_api_key "secret" none = Except.error ⟨401, "Missing API Key"⟩ ∧
    get_api_key "secret" (some "wrong") = Except.error ⟨401, "Invalid API Key"⟩ ∧
    ("Missing API Key" : String) ≠ "Invalid API Key" := by
  refine ⟨rfl, rfl, by decide⟩

/-- Claim C8, amended: every authentication failure is reported with status
401, but the detail distinguishes the cases: an absent (or empty) key
yields Missing API Key and a present-but-wrong key yields Invalid API
Key, so the response does reveal which case occurred. -/
theorem claim_C8_auth (apiKey : String) (provided : Option String) :
    (∀ e, get_api_key apiKey provided = Except.error e → e.status = 401) ∧
    (provided = none →
      get_api_key apiKey provided = Except.error ⟨401, "Missing API Key"⟩) ∧
    (∀ k, provided = some k → k ≠ "" → k ≠ apiKey →
      get_api_key apiKey provided = Except.error ⟨401, "Invalid API Key"⟩) := by
  refine ⟨?_, ?_, ?_⟩
  · intro e he
    rcases provided with _ | k
    · simp only [get_api_key] at he
      cases he; rfl
    · simp only [get_api_key] at he
      split_ifs at he <;> cases he <;> rfl
  · rintro rfl
    rfl
  · rintro k rfl hk hka
    simp only [get_api_key]
    rw [if_neg hk, if_neg hka]

/-- Claim C8, witness: the amended behavior evaluated at a wrong key. -/
theorem claim_C8_witness :
    get_api_key "secret" (some "wrong") = Except.error ⟨401, "Invalid API Key"⟩ :=
  (claim_C8_auth "secret" (some "wrong")).2.2 "wrong" rfl (by decide) (by decide)

/-- Claim C9, counterexample: the temporary render paths are fixed
label-derived strings — the june 2025 monthly request always writes to
/tmp/june_2025.png and the june 1 - june 7 weekly request always writes
to /tmp/06-01-2025-06-07-2025.png — so two simultaneous requests with
identical labels write to the same temporary path. -/
theorem claim_C9_counterexample :
    monthly_dest ⟨"s3", "/tmp"⟩ ⟨Month.june, 2025⟩ = "/tmp/june_2025.png" ∧
    weekly_dest ⟨"s3", "/tmp"⟩ ⟨2025, Month.june, 1, 2025, Month.june, 7⟩ =
      "/tmp/06-01-2025-06-07-2025.png" ∧
    monthly_dest ⟨"s3", "/tmp"⟩ ⟨Month.june, 2025⟩ =
      monthly_dest ⟨"s3", "/tmp"⟩ ⟨Month.june, 2025⟩ := by
  decide

/-- Claim C9, amended: the temporary render path is determined entirely by
the configured image directory and the request's label fields, with no
per-request-unique component: two requests agreeing on those fields are
written to the same temporary path. -/
theorem claim_C9_label_derived_path (cfg : Config)
    (p q : CreateMonthlyPlaylistCover) (v w : CreateWeeklyPlaylistCover)
    (hm : p.month = q.month) (hy : p.year = q.year)
    (h1 : v.month1 = w.month1) (h2 : v.day1 = w.day1) (h3 : v.year1 = w.year1)
    (h4 : v.month2 = w.month2) (h5 : v.day2 = w.day2) (h6 : v.year2 = w.year2) :
    monthly_dest cfg p = monthly_dest cfg q ∧
    weekly_dest cfg v = weekly_dest cfg w := by
  cases p; cases q; cases v; cases w
  dsimp at hm hy h1 h2 h3 h4 h5 h6
  subst hm hy h1 h2 h3 h4 h5 h6
  exact ⟨rfl, rfl⟩

/-- Claim C9, witness: two identical-label requests collide on the same
temporary path. -/
theorem claim_C9_witness :
    monthly_dest ⟨"s3", "/tmp"⟩ ⟨Month.june, 2025⟩ =
      monthly_dest ⟨"s3", "/tmp"⟩ ⟨Month.june, 2025⟩ ∧
    weekly_dest ⟨"s3", "/tmp"⟩ ⟨2025, Month.june, 1, 2025, Month.june, 7⟩ =
      weekly_dest ⟨"s3", "/tmp"⟩ ⟨2025, Month.june, 1, 2025, Month.june, 7⟩ :=
  claim_C9_label_derived_path ⟨"s3", "/tmp"⟩ _ _ _ _
    rfl rfl rfl rfl rfl rfl rfl rfl

/-- Claim C10: two validated weekly requests agreeing on month1, day1,
month2, day2 and year2 produce identical object keys and identical URLs —
year1 never reaches the key or the URL. -/
theorem claim_C10_year1_independent (cfg : Config)
    (p q : CreateWeeklyPlaylistCover)
    (h1 : p.month1 = q.month1) (h2 : p.day1 = q.day1)
    (h4 : p.month2 = q.month2) (h5 : p.day2 = q.day2) (h6 : p.year2 = q.year2) :
    weekly_object_name p = weekly_object_name q ∧
    weeklyUrl cfg p = weeklyUrl cfg q := by
  cases p; cases q
  dsimp at h1 h2 h4 h5 h6
  subst h1 h2 h4 h5 h6
  exact ⟨rfl, rfl⟩

/-- Claim C10, witness: changing only year1 from 2025 to 2026 leaves the
key and the URL unchanged. -/
theorem claim_C10_witness :
    weekly_object_name ⟨2025, Month.march, 3, 2025, Month.march, 9⟩ =
      weekly_object_name ⟨2026, Month.march, 3, 2025, Month.march, 9⟩ ∧
    weeklyUrl ⟨"s3", "/tmp"⟩ ⟨2025, Month.march, 3, 2025, Month.march, 9⟩ =
      weeklyUrl ⟨"s3", "/tmp"⟩ ⟨2026, Month.march, 3, 2025, Month.march, 9⟩ :=
  claim_C10_year1_independent ⟨"s3", "/tmp"⟩ _ _ rfl rfl rfl rfl rfl

end ImageGenerator
